import Mathlib

/-!
Shallow embedding of `pupy/packages/patches/all/scapy/config.py` (a patched
copy of scapy's configuration module) and proofs about it.

Python dictionaries are modelled as functions `K → Option V`; a lookup that
would raise `KeyError` returns `none`.  Handler types ("layers", instances of
`Packet_metaclass` in the source) are an opaque type parameter `L` with
decidable equality.  Fallible external collaborators (the crypto gate, hooks,
the logging subsystem) are modelled with `Except`/`Option` errors.
-/

/-- Functional update of a dictionary modelled as `K → Option V`:
`d[k] = v` in Python. -/
def updD {K V : Type} [DecidableEq K] (d : K → Option V) (k : K) (v : V) :
    K → Option V :=
  fun x => if x = k then some v else d x

theorem updD_same {K V : Type} [DecidableEq K] (d : K → Option V) (k : K) (v : V) :
    updD d k v k = some v := by
  simp [updD]

theorem updD_other {K V : Type} [DecidableEq K] (d : K → Option V) (k x : K) (v : V)
    (h : x ≠ k) : updD d k v x = d x := by
  simp [updD, h]

/-! ## Num2Layer (config.py lines 105-130)

A bidirectional registry between numeric codes and handler types, with two
separate dictionaries `num2layer` and `layer2num`. -/

structure Num2Layer (L : Type) where
  num2layer : Nat → Option L
  layer2num : L → Option Nat

/-- The state built by `Num2Layer.__init__`: both dictionaries empty. -/
def Num2Layer.init (L : Type) : Num2Layer L :=
  { num2layer := fun _ => none, layer2num := fun _ => none }

def Num2Layer.register_num2layer {L : Type} [DecidableEq L]
    (r : Num2Layer L) (num : Nat) (layer : L) : Num2Layer L :=
  { r with num2layer := updD r.num2layer num layer }

def Num2Layer.register_layer2num {L : Type} [DecidableEq L]
    (r : Num2Layer L) (num : Nat) (layer : L) : Num2Layer L :=
  { r with layer2num := updD r.layer2num layer num }

/-- Method `register`: records both directions. -/
def Num2Layer.register {L : Type} [DecidableEq L]
    (r : Num2Layer L) (num : Nat) (layer : L) : Num2Layer L :=
  (r.register_num2layer num layer).register_layer2num num layer

/-- An argument to `__getitem__` / `__contains__` / `get`: either a numeric
code or a handler type (the source dispatches with
`isinstance(item, base_classes.Packet_metaclass)`). -/
inductive N2LKey (L : Type) where
  | num (n : Nat)
  | layer (l : L)
deriving DecidableEq

/-- A value coming out of a `Num2Layer` lookup: a code or a handler type. -/
inductive N2LVal (L : Type) where
  | num (n : Nat)
  | layer (l : L)
deriving DecidableEq

/-- Method `__getitem__`; `none` models the `KeyError` raised on an absent
key. -/
def Num2Layer.getItem {L : Type} (r : Num2Layer L) : N2LKey L → Option (N2LVal L)
  | .layer l => (r.layer2num l).map N2LVal.num
  | .num n => (r.num2layer n).map N2LVal.layer

/-- Method `__contains__`. -/
def Num2Layer.containsKey {L : Type} (r : Num2Layer L) : N2LKey L → Bool
  | .layer l => (r.layer2num l).isSome
  | .num n => (r.num2layer n).isSome

/-- Method `get(item, default=None)`; the caller-supplied default is an
arbitrary `Option` value (`none` models Python's `None`). -/
def Num2Layer.get {L : Type} (r : Num2Layer L) (item : N2LKey L)
    (default : Option (N2LVal L)) : Option (N2LVal L) :=
  if r.containsKey item then r.getItem item else default

theorem Num2Layer.contains_iff_getItem_isSome {L : Type} (r : Num2Layer L)
    (k : N2LKey L) : r.containsKey k = (r.getItem k).isSome := by
  cases k <;> simp [Num2Layer.containsKey, Num2Layer.getItem]

/-- C1: immediately after `register(code, type)`, `lookup(code) = type` and
`lookup(type) = code`; after re-registering the same code with a different
`type2`, `lookup(code) = type2` and `lookup(type2) = code`, while the old
reverse mapping is stale: `lookup(type)` still returns `code`. -/
theorem num2layer_register_roundtrip_and_stale {L : Type} [DecidableEq L]
    (r : Num2Layer L) (code : Nat) (ty ty2 : L) (h : ty2 ≠ ty) :
    ((r.register code ty).getItem (.num code) = some (.layer ty)) ∧
    ((r.register code ty).getItem (.layer ty) = some (.num code)) ∧
    (((r.register code ty).register code ty2).getItem (.num code)
        = some (.layer ty2)) ∧
    (((r.register code ty).register code ty2).getItem (.layer ty2)
        = some (.num code)) ∧
    (((r.register code ty).register code ty2).getItem (.layer ty)
        = some (.num code)) := by
  refine ⟨?_, ?_, ?_, ?_, ?_⟩ <;>
    simp [Num2Layer.register, Num2Layer.register_num2layer,
      Num2Layer.register_layer2num, Num2Layer.getItem, updD, h]

/-- C1 witness: the round-trip and staleness facts at a concrete instance. -/
theorem num2layer_register_roundtrip_and_stale_witness :
    (((Num2Layer.init Nat).register 6 100).getItem (.num 6)
        = some (.layer 100)) ∧
    (((Num2Layer.init Nat).register 6 100).getItem (.layer 100)
        = some (.num 6)) ∧
    ((((Num2Layer.init Nat).register 6 100).register 6 200).getItem (.num 6)
        = some (.layer 200)) ∧
    ((((Num2Layer.init Nat).register 6 100).register 6 200).getItem (.layer 200)
        = some (.num 6)) ∧
    ((((Num2Layer.init Nat).register 6 100).register 6 200).getItem (.layer 100)
        = some (.num 6)) :=
  num2layer_register_roundtrip_and_stale (Num2Layer.init Nat) 6 100 200
    (by decide)

/-- C8: a key absent from its direction makes `__getitem__` fail (`none`,
modelling `KeyError`) and makes `get` return the caller-supplied default;
a present key makes `get` return exactly what `__getitem__` returns. -/
theorem num2layer_getitem_get_spec {L : Type} (r : Num2Layer L)
    (k : N2LKey L) (d : Option (N2LVal L)) :
    (r.containsKey k = false → r.getItem k = none ∧ r.get k d = d) ∧
    (∀ v, r.getItem k = some v → r.get k d = some v) := by
  constructor
  · intro h
    have hg : r.getItem k = none := by
      have := r.contains_iff_getItem_isSome k
      rw [h] at this
      exact Option.not_isSome_iff_eq_none.mp (by simp [← this])
    exact ⟨hg, by simp [Num2Layer.get, h]⟩
  · intro v hv
    have hc : r.containsKey k = true := by
      rw [r.contains_iff_getItem_isSome k, hv]
      rfl
    simp [Num2Layer.get, hc, hv]

/-- C8 witness: after registering (6, 100), code 99 is absent so lookup
fails and `get` returns the default, while code 6 is present so `get`
agrees with the indexed lookup. -/
theorem num2layer_getitem_get_spec_witness :
    (((Num2Layer.init Nat).register 6 100).getItem (.num 99) = none ∧
      ((Num2Layer.init Nat).register 6 100).get (.num 99)
        (some (.num 777)) = some (.num 777)) ∧
    (((Num2Layer.init Nat).register 6 100).get (.num 6)
        (some (.num 777)) = some (.layer 100)) :=
  ⟨(num2layer_getitem_get_spec ((Num2Layer.init Nat).register 6 100)
      (.num 99) (some (.num 777))).1 (by decide),
   (num2layer_getitem_get_spec ((Num2Layer.init Nat).register 6 100)
      (.num 6) (some (.num 777))).2 (N2LVal.layer 100) (by decide)⟩

/-! ## ConfigFieldList (config.py lines 76-96)

A set of field objects; each field object declares a set of owner handler
types via an `owners` attribute.  A member is modelled as an identifier plus
an optional owners set; `owners? = none` models an object that lacks the
`owners` attribute. -/

structure FieldObj (L : Type) where
  id : Nat
  owners? : Option (Finset L)
deriving DecidableEq

/-- Static method `_is_field(f)`, that is `hasattr(f, "owners")`. -/
def FieldObj.is_field {L : Type} (f : FieldObj L) : Bool :=
  f.owners?.isSome

/-- The `owners` attribute of a field object (empty when absent; the source
only ever reads `owners` of members that passed `_is_field`). -/
def FieldObj.ownersOf {L : Type} (f : FieldObj L) : Finset L :=
  f.owners?.getD ∅

structure ConfigFieldList (L : Type) where
  fields : Finset (FieldObj L)
  layers : Finset L

/-- The state built by `ConfigFieldList.__init__`: both sets empty. -/
def ConfigFieldList.init (L : Type) : ConfigFieldList L := ⟨∅, ∅⟩

/-- Method `_recalc_layer_list`: fully recomputes `layers` as the union of
the owners of the current members. -/
def ConfigFieldList.recalc_layer_list {L : Type} [DecidableEq L]
    (s : ConfigFieldList L) : ConfigFieldList L :=
  { s with layers := s.fields.biUnion FieldObj.ownersOf }

/-- Method `add(*flds)`: unions in the arguments that pass `_is_field`, then
recomputes the layer list. -/
def ConfigFieldList.add {L : Type} [DecidableEq L]
    (s : ConfigFieldList L) (flds : List (FieldObj L)) : ConfigFieldList L :=
  ConfigFieldList.recalc_layer_list
    { s with fields := s.fields ∪ (flds.filter FieldObj.is_field).toFinset }

/-- Method `remove(*flds)`: set-difference removal, then recomputes the
layer list. -/
def ConfigFieldList.remove {L : Type} [DecidableEq L]
    (s : ConfigFieldList L) (flds : List (FieldObj L)) : ConfigFieldList L :=
  ConfigFieldList.recalc_layer_list
    { s with fields := s.fields \ flds.toFinset }

/-- A mutation of a `ConfigFieldList`: one `add` or `remove` call. -/
inductive CFLOp (L : Type) where
  | add (flds : List (FieldObj L))
  | remove (flds : List (FieldObj L))

def CFLOp.apply {L : Type} [DecidableEq L]
    (s : ConfigFieldList L) : CFLOp L → ConfigFieldList L
  | .add flds => s.add flds
  | .remove flds => s.remove flds

/-- Runs a sequence of add/remove calls on a fresh registry. -/
def ConfigFieldList.run {L : Type} [DecidableEq L]
    (ops : List (CFLOp L)) : ConfigFieldList L :=
  ops.foldl CFLOp.apply (ConfigFieldList.init L)

theorem CFLOp.apply_layers {L : Type} [DecidableEq L]
    (s : ConfigFieldList L) (op : CFLOp L) :
    (op.apply s).layers = (op.apply s).fields.biUnion FieldObj.ownersOf := by
  cases op <;>
    simp [CFLOp.apply, ConfigFieldList.add, ConfigFieldList.remove,
      ConfigFieldList.recalc_layer_list]

theorem ConfigFieldList.foldl_layers {L : Type} [DecidableEq L]
    (ops : List (CFLOp L)) (s : ConfigFieldList L)
    (hs : s.layers = s.fields.biUnion FieldObj.ownersOf) :
    (ops.foldl CFLOp.apply s).layers
      = (ops.foldl CFLOp.apply s).fields.biUnion FieldObj.ownersOf := by
  induction ops generalizing s with
  | nil => exact hs
  | cons op rest ih => exact ih (op.apply s) (CFLOp.apply_layers s op)

/-- C2: after any finite sequence of add/remove calls starting from a fresh
registry, the derived `layers` set equals the union of the `owners` sets of
exactly the current members; in particular no owner contributed only by
removed members survives. -/
theorem configfieldlist_layers_invariant {L : Type} [DecidableEq L]
    (ops : List (CFLOp L)) :
    (ConfigFieldList.run ops).layers
      = (ConfigFieldList.run ops).fields.biUnion FieldObj.ownersOf :=
  ConfigFieldList.foldl_layers ops (ConfigFieldList.init L)
    (by simp [ConfigFieldList.init])

/-- C9: an `add` argument lacking an `owners` attribute is silently dropped:
including it anywhere in the argument list leaves the resulting state (both
the member set and the derived layer set) unchanged. -/
theorem configfieldlist_add_drops_nonfield {L : Type} [DecidableEq L]
    (s : ConfigFieldList L) (l1 l2 : List (FieldObj L)) (x : FieldObj L)
    (hx : x.is_field = false) :
    s.add (l1 ++ x :: l2) = s.add (l1 ++ l2) := by
  simp [ConfigFieldList.add, List.filter_append, List.filter_cons, hx]

/-- C9 witness: adding a genuine field together with an owners-less object
gives the very state obtained by adding the field alone. -/
theorem configfieldlist_add_drops_nonfield_witness :
    (FieldObj.is_field (L := Nat) ⟨7, none⟩ = false) ∧
    (ConfigFieldList.init Nat).add [⟨1, some {10}⟩, ⟨7, none⟩]
      = (ConfigFieldList.init Nat).add [⟨1, some {10}⟩] :=
  ⟨by decide,
   configfieldlist_add_drops_nonfield (ConfigFieldList.init Nat)
     [⟨1, some {10}⟩] [] ⟨7, none⟩ (by decide)⟩

/-! ## ConfClass (config.py lines 27-29)

Instance state (`__dict__`) is a dictionary from attribute names to values;
attribute reads fall back to the class-level defaults dictionary when the
name is absent from the instance state (Python attribute lookup). -/

structure ConfClass (V : Type) where
  dict : String → Option V

/-- Method `configure(cnf)`: `self.__dict__ = cnf.__dict__.copy()` — the
instance state is replaced wholesale by a shallow copy of the other
instance's state. -/
def ConfClass.configure {V : Type} (self cnf : ConfClass V) : ConfClass V :=
  { self with dict := cnf.dict }

/-- Python attribute read on a `ConfClass` instance: the instance state
first, then the class-level defaults (`none` models `AttributeError`). -/
def ConfClass.getattr {V : Type} (classDict : String → Option V)
    (self : ConfClass V) (name : String) : Option V :=
  match self.dict name with
  | some v => some v
  | none => classDict name

/-- C3: after `self.configure(other)`, reading any attribute present in
the state of `other` returns exactly the value stored there (the same
object, so containers end up shared), and reading an attribute set on
neither instance's state returns the class-level default. -/
theorem confclass_configure_spec {V : Type} (classDict : String → Option V)
    (self other : ConfClass V) (a b : String) (v : V)
    (ha : other.dict a = some v)
    (hb1 : self.dict b = none) (hb2 : other.dict b = none) :
    (self.configure other).getattr classDict a = some v ∧
    (self.configure other).getattr classDict b = classDict b := by
  constructor
  · simp [ConfClass.configure, ConfClass.getattr, ha]
  · simp [ConfClass.configure, ConfClass.getattr, hb2]

/-- C3 witness: a concrete configure followed by the two reads. -/
theorem confclass_configure_spec_witness :
    ((ConfClass.mk (V := Nat) fun n => if n = "verb" then some 9 else none).dict
        "verb" = some 9) ∧
    ((ConfClass.mk (V := Nat) fun _ => none).configure
        (ConfClass.mk fun n => if n = "verb" then some 9 else none)).getattr
        (fun n => if n = "padding" then some 1 else none) "verb" = some 9 ∧
    ((ConfClass.mk (V := Nat) fun _ => none).configure
        (ConfClass.mk fun n => if n = "verb" then some 9 else none)).getattr
        (fun n => if n = "padding" then some 1 else none) "padding" = some 1 :=
  ⟨by decide,
   by
    have := confclass_configure_spec
      (fun n => if n = "padding" then some 1 else none)
      (ConfClass.mk (V := Nat) fun _ => none)
      (ConfClass.mk fun n => if n = "verb" then some 9 else none)
      "verb" "padding" 9 (by decide) (by decide) (by decide)
    exact ⟨this.1, this.2⟩⟩

/-! ## crypto_validator (config.py lines 284-295)

The wrapped function may itself succeed or raise, so it is modelled as
returning `Except String`; the gate flag is `conf.crypto_valid`. -/

/-- The error message raised by the crypto gate. -/
def cryptoErrorMsg : String :=
  "Cannot execute crypto-related method! Please install python-cryptography v1.7 or later."

/-- Decorator `crypto_validator`: the returned `func_in` raises
`ImportError` when `conf.crypto_valid` is false, and otherwise delegates to
the wrapped function. -/
def crypto_validator {A B : Type} (crypto_valid : Bool)
    (func : A → Except String B) : A → Except String B :=
  fun a =>
    if crypto_valid = false then Except.error cryptoErrorMsg
    else func a

/-- C4: with the capability flag false, the wrapped call raises the
missing-dependency `ImportError` and the result does not depend on the
wrapped function at all (its body is never executed); with the flag true,
the call delegates unchanged and returns the wrapped function's result. -/
theorem crypto_validator_spec {A B : Type} (f g : A → Except String B)
    (a : A) :
    crypto_validator false f a = Except.error cryptoErrorMsg ∧
    crypto_validator false f a = crypto_validator false g a ∧
    crypto_validator true f a = f a := by
  refine ⟨rfl, rfl, ?_⟩
  simp [crypto_validator]

/-! ## Interceptor (config.py lines 60-74)

A data descriptor storing its value on the owning object under the key
`_intercepted_<name>` and calling a hook after every write.  The owning
object's attribute dictionary is `String → Option V`; the hook is an
external collaborator that may raise, modelled as returning
`Except E Unit`.  Writes additionally produce an event trace so the order
and multiplicity of the store and the hook invocation are observable. -/

structure Interceptor (V A : Type) where
  name : String
  default : V
  args : List A
  kargs : List (String × A)

/-- The storage key computed in `__init__`:
`"_intercepted_%s" % name`. -/
def Interceptor.intname {V A : Type} (I : Interceptor V A) : String :=
  "_intercepted_" ++ I.name

/-- One observable step of `Interceptor.__set__`. -/
inductive IEvent (V A : Type) where
  | store (intname : String) (val : V)
  | hookCall (name : String) (val : V) (args : List A) (kargs : List (String × A))
deriving DecidableEq

/-- Method `__set__(obj, val)`: `setattr(obj, self.intname, val)` followed
by `self.hook(self.name, val, *self.args, **self.kargs)`.  Returns the
updated object state, the event trace, and the hook's outcome, which is
passed through uncaught. -/
def Interceptor.descSet {V A E : Type} (I : Interceptor V A)
    (hook : String → V → List A → List (String × A) → Except E Unit)
    (obj : String → Option V) (val : V) :
    (String → Option V) × List (IEvent V A) × Except E Unit :=
  (updD obj I.intname val,
   [IEvent.store I.intname val, IEvent.hookCall I.name val I.args I.kargs],
   hook I.name val I.args I.kargs)

/-- Method `__get__(obj, typ)`: if the owning object has no stored value,
store the default first; then return the stored value.  Returns the value
and the (possibly updated) object state. -/
def Interceptor.descGet {V A : Type} (I : Interceptor V A)
    (obj : String → Option V) : V × (String → Option V) :=
  match obj I.intname with
  | some v => (v, obj)
  | none => (I.default, updD obj I.intname I.default)

/-- Recognizes a hook-invocation event. -/
def IEvent.isHookCall {V A : Type} : IEvent V A → Bool
  | .hookCall _ _ _ _ => true
  | _ => false

/-- C5: a write through the interceptor stores the value unconditionally,
then invokes the hook exactly once with `(name, val, *args, **kargs)` after
the store; the stored value is visible whatever the hook outcome (errors
included), and the hook outcome is passed through uncaught. -/
theorem interceptor_set_spec {V A E : Type} (I : Interceptor V A)
    (hook : String → V → List A → List (String × A) → Except E Unit)
    (obj : String → Option V) (val : V) :
    ((I.descSet hook obj val).1 I.intname = some val) ∧
    ((I.descSet hook obj val).2.1
        = [IEvent.store I.intname val,
           IEvent.hookCall I.name val I.args I.kargs]) ∧
    (((I.descSet hook obj val).2.1.filter IEvent.isHookCall).length = 1) ∧
    ((I.descSet hook obj val).2.2 = hook I.name val I.args I.kargs) := by
  refine ⟨?_, rfl, ?_, rfl⟩
  · simp [Interceptor.descSet, updD]
  · simp [Interceptor.descSet, List.filter, IEvent.isHookCall]

/-- C6: on an owning object that was never written, the first read stores
the default and returns it; a second read returns the same value without
touching the state again (materialization happens at most once); a read
after a write returns the written value; and writing through the descriptor
on one owning object leaves every other owning object's state untouched. -/
theorem interceptor_get_spec {V A E : Type} (I : Interceptor V A)
    (hook : String → V → List A → List (String × A) → Except E Unit)
    (obj : String → Option V) (val : V)
    (w : Nat → String → Option V) (i j : Nat)
    (h0 : obj I.intname = none) (hij : j ≠ i) :
    ((I.descGet obj).1 = I.default) ∧
    ((I.descGet obj).2 I.intname = some I.default) ∧
    (I.descGet (I.descGet obj).2 = (I.default, (I.descGet obj).2)) ∧
    ((I.descGet (I.descSet hook obj val).1).1 = val) ∧
    ((fun k => if k = i then (I.descSet hook (w i) val).1 else w k) j = w j) := by
  refine ⟨?_, ?_, ?_, ?_, ?_⟩
  · simp [Interceptor.descGet, h0]
  · simp [Interceptor.descGet, h0, updD]
  · simp [Interceptor.descGet, h0, updD]
  · simp [Interceptor.descGet, Interceptor.descSet, updD]
  · simp [hij]

/-- Concrete interceptor used by the C6 witness: the prompt interceptor
shape with a numeric payload. -/
def promptIx : Interceptor Nat Nat := ⟨"prompt", 5, [], []⟩

/-- Concrete always-succeeding hook used by the C6 witness. -/
def okHook : String → Nat → List Nat → List (String × Nat) → Except Unit Unit :=
  fun _ _ _ _ => Except.ok ()

/-- Concrete empty attribute dictionary used by the C6 witness. -/
def emptyObj : String → Option Nat := fun _ => none

/-- Concrete world of owning objects used by the C6 witness. -/
def emptyWorld : Nat → String → Option Nat := fun _ _ => none

/-- C6 witness: the lazy-default, read-after-write and per-object facts at
a concrete interceptor with an initially empty owning object. -/
theorem interceptor_get_spec_witness :
    ((promptIx.descGet emptyObj).1 = promptIx.default) ∧
    ((promptIx.descGet emptyObj).2 promptIx.intname = some promptIx.default) ∧
    (promptIx.descGet (promptIx.descGet emptyObj).2
      = (promptIx.default, (promptIx.descGet emptyObj).2)) ∧
    ((promptIx.descGet (promptIx.descSet okHook emptyObj 42).1).1 = 42) ∧
    ((fun k => if k = 0 then (promptIx.descSet okHook (emptyWorld 0) 42).1
        else emptyWorld k) 1 = emptyWorld 1) :=
  interceptor_get_spec promptIx okHook emptyObj 42 emptyWorld 0 1 rfl
    (by decide)

/-! ## LogLevel (config.py lines 159-164)

`__set__` first calls `log_scapy.setLevel(val)` on the external logging
subsystem, then stores `obj._logLevel = val`.  The state holds the
external threshold and the locally stored level; the external setter may
raise, modelled by a parameter giving the error it raises per value (the
field itself performs no validation). -/

structure LogState (V : Type) where
  threshold : V
  logLevel : V

/-- Method `__get__`: returns `obj._logLevel`. -/
def LogLevel.descGet {V : Type} (st : LogState V) : V :=
  st.logLevel

/-- Method `__set__(obj, val)`: forwards `val` to `log_scapy.setLevel`
first; if the setter raises, the state is left as it was and the error
propagates uncaught; otherwise the external threshold becomes `val` and
`obj._logLevel` is then set to `val`. -/
def LogLevel.descSet {V E : Type} (setLevelRaises : V → Option E)
    (st : LogState V) (val : V) : LogState V × Option E :=
  match setLevelRaises val with
  | some e => (st, some e)
  | none => ({ threshold := val, logLevel := val }, none)

/-- C7: for any level the external setter accepts, writing it makes the
external threshold equal to it and a subsequent read of the field return
it, with no error; the field applies no validation of its own — this holds
for every value the external subsystem accepts. -/
theorem loglevel_set_spec {V E : Type} (setLevelRaises : V → Option E)
    (st : LogState V) (val : V) (hok : setLevelRaises val = none) :
    ((LogLevel.descSet setLevelRaises st val).1.threshold = val) ∧
    (LogLevel.descGet (LogLevel.descSet setLevelRaises st val).1 = val) ∧
    ((LogLevel.descSet setLevelRaises st val).2 = none) := by
  simp [LogLevel.descSet, LogLevel.descGet, hok]

/-- C7 witness: writing level 30 with an external setter that accepts it. -/
theorem loglevel_set_spec_witness :
    ((LogLevel.descSet (fun (_ : Nat) => (none : Option Unit))
        ⟨0, 0⟩ 30).1.threshold = 30) ∧
    (LogLevel.descGet (LogLevel.descSet (fun (_ : Nat) => (none : Option Unit))
        ⟨0, 0⟩ 30).1 = 30) ∧
    ((LogLevel.descSet (fun (_ : Nat) => (none : Option Unit))
        ⟨0, 0⟩ 30).2 = none) :=
  loglevel_set_spec (fun _ => none) ⟨0, 0⟩ 30 rfl

/-- C10: when the external setter raises, the write is atomic on error —
the whole state (the locally stored level in particular) is unchanged, so a
subsequent read returns the previous value, and the error propagates to the
writer uncaught. -/
theorem loglevel_set_atomic_on_error {V E : Type} (setLevelRaises : V → Option E)
    (st : LogState V) (val : V) (e : E) (hraise : setLevelRaises val = some e) :
    ((LogLevel.descSet setLevelRaises st val).1 = st) ∧
    (LogLevel.descGet (LogLevel.descSet setLevelRaises st val).1
      = LogLevel.descGet st) ∧
    ((LogLevel.descSet setLevelRaises st val).2 = some e) := by
  simp [LogLevel.descSet, LogLevel.descGet, hraise]

/-- C10 witness: an external setter that rejects level 99 leaves the stored
level 30 in place and propagates the error. -/
theorem loglevel_set_atomic_on_error_witness :
    ((LogLevel.descSet (fun (v : Nat) => if v = 99 then some () else none)
        ⟨30, 30⟩ 99).1 = (⟨30, 30⟩ : LogState Nat)) ∧
    (LogLevel.descGet (LogLevel.descSet
        (fun (v : Nat) => if v = 99 then some () else none) ⟨30, 30⟩ 99).1
      = LogLevel.descGet (⟨30, 30⟩ : LogState Nat)) ∧
    ((LogLevel.descSet (fun (v : Nat) => if v = 99 then some () else none)
        ⟨30, 30⟩ 99).2 = some ()) :=
  loglevel_set_atomic_on_error (fun v => if v = 99 then some () else none)
    ⟨30, 30⟩ 99 () (by decide)
